import Mathlib

/-!
Verification of the folding-scheme core in `src/plonk.rs`.

The data model (`PlonkStructure`, `PlonkInstance`, `PlonkWitness`,
`RelaxedPlonkInstance`, `RelaxedPlonkWitness`), the satisfiability checkers
`is_sat` / `is_sat_relaxed`, the folding operators, the `to_relax` lifts and
the random-oracle absorption routines are shallowly embedded from
`src/plonk.rs`.  The scalar field is an arbitrary commutative ring `F`; curve
points form an additive commutative group `G` that is a module over `F`
(scalar multiplication models `best_multiexp` on a single point).

The external collaborators (the polynomial engine of `polynomial.rs`, the
commitment scheme of `commitment.rs` and the random oracle of `poseidon.rs`)
are code of this repository that is not present under `src/`; they are
modelled from the specification, and each such definition carries a doc
comment saying so.

Rust panics (integer division by zero in `PlonkWitness::to_relax`,
out-of-bounds indexing of `W.E` in `is_sat_relaxed`, out-of-bounds indexing
of a cross-term vector in `RelaxedPlonkWitness::fold`) are modelled by
`Option`-valued results, `none` standing for a panic.
-/

namespace Sirius

/-- Modelled from the spec: the polynomial-relation engine (`polynomial.rs`,
not under `src/`) represents the gate constraint as a multivariate polynomial
over column variables.  A monomial is a coefficient together with the list of
its column variables, listed with multiplicity. -/
structure Monomial (F : Type) where
  coeff : F
  vars : List Nat
deriving DecidableEq

/-- Modelled from the spec: a multivariate polynomial is a formal sum of
monomials. -/
structure MultiPolynomial (F : Type) where
  monomials : List (Monomial F)
deriving DecidableEq

def Monomial.evalAt {F : Type} [CommRing F] (σ : Nat → F) (m : Monomial F) : F :=
  m.coeff * (m.vars.map σ).prod

def MultiPolynomial.evalAt {F : Type} [CommRing F] (p : MultiPolynomial F) (σ : Nat → F) : F :=
  (p.monomials.map (Monomial.evalAt σ)).sum

/-- Modelled from the spec: total degree of a monomial, counting only
non-fixed columns (indices at or above `num_fixed`). -/
def Monomial.degree {F : Type} (num_fixed : Nat) (m : Monomial F) : Nat :=
  (m.vars.filter (fun i => num_fixed ≤ i)).length

def MultiPolynomial.degree {F : Type} (num_fixed : Nat) (p : MultiPolynomial F) : Nat :=
  (p.monomials.map (Monomial.degree num_fixed)).foldr max 0

/-- Modelled from the spec: homogenization pads every monomial with powers of
the scaling variable `u` (column `u_index`) so that all monomials reach the
polynomial's maximal total degree. -/
def MultiPolynomial.homogeneous {F : Type} (p : MultiPolynomial F)
    (num_fixed u_index : Nat) : MultiPolynomial F :=
  let d := p.degree num_fixed
  ⟨p.monomials.map (fun m =>
    ⟨m.coeff, List.replicate (d - m.degree num_fixed) u_index ++ m.vars⟩)⟩

/-- Modelled from the spec: the commitment collaborator (`commitment.rs`, not
under `src/`).  A key is a list of group elements and `commit` is the
multi-scalar multiplication of the value vector against the key. -/
structure CommitmentKey (G : Type) where
  key : List G

def CommitmentKey.commit {F G : Type} [CommRing F] [AddCommGroup G] [Module F G]
    (ck : CommitmentKey G) (v : List F) : G :=
  (List.zipWith (fun a g => a • g) v ck.key).sum

/-- Modelled from the spec: `CommitmentKey::default_value` is the additive
identity of the group. -/
def CommitmentKey.default_value (G : Type) [AddCommGroup G] : G := 0

/-- Embedding of `PlonkStructure` from `src/plonk.rs`. -/
structure PlonkStructure (F G : Type) where
  k : Nat
  fixed_columns : List (List F)
  num_advice_columns : Nat
  gate : MultiPolynomial F
  fixed_commitment : G

/-- Embedding of `PlonkInstance` from `src/plonk.rs`. -/
structure PlonkInstance (F G : Type) where
  W_commitment : G
  «instance» : List F
  y : F
deriving DecidableEq

/-- Embedding of `PlonkWitness` from `src/plonk.rs`. -/
structure PlonkWitness (F : Type) where
  num_advice_columns : Nat
  W : List F
deriving DecidableEq

/-- Embedding of `RelaxedPlonkInstance` from `src/plonk.rs`. -/
structure RelaxedPlonkInstance (F G : Type) where
  W_commitment : G
  «instance» : List F
  E_commitment : G
  u : F
  y : F
deriving DecidableEq

/-- Embedding of `RelaxedPlonkWitness` from `src/plonk.rs`. -/
structure RelaxedPlonkWitness (F : Type) where
  num_advice_columns : Nat
  W : List F
  E : List F
deriving DecidableEq

/-- The distinct `Err` values produced by `is_sat` / `is_sat_relaxed`: one
constructor per distinct format string of `src/plonk.rs`, carrying the
formatted data. -/
inductive PlonkError (G : Type) where
  | relationNotSatisfied : PlonkError G
  | relaxedRelationNotSatisfied (failing total : Nat) : PlonkError G
  | commitmentMismatchBoth (expectedW actualW expectedE actualE : G) : PlonkError G
  | commitmentMismatchW (expected actual : G) : PlonkError G
  | commitmentMismatchE (expected actual : G) : PlonkError G
deriving DecidableEq

/-- Modelled from the spec: the random-oracle collaborator (`poseidon.rs`, not
under `src/`) is a stateful, order-sensitive transcript; its state is the
sequence of absorbed items. -/
inductive ROItem (B G : Type) where
  | point : G → ROItem B G
  | base : B → ROItem B G
deriving DecidableEq

/-- Modelled from the spec: `absorb_point` appends a group element to the
transcript. -/
def absorb_point {B G : Type} (ro : List (ROItem B G)) (p : G) : List (ROItem B G) :=
  ro ++ [ROItem.point p]

/-- Modelled from the spec: `absorb_base` appends a base-field element to the
transcript. -/
def absorb_base {B G : Type} (ro : List (ROItem B G)) (b : B) : List (ROItem B G) :=
  ro ++ [ROItem.base b]

/-- Embedding of `AbsorbInRO for PlonkInstance` from `src/plonk.rs`: absorb `W_commitment`,
then the first two instance values, converted by `fe_to_fe`. -/
def PlonkInstance.absorb_into {F G B : Type} (fe_to_fe : F → B)
    (self : PlonkInstance F G) (ro : List (ROItem B G)) : List (ROItem B G) :=
  (self.«instance».take 2).foldl (fun st inst => absorb_base st (fe_to_fe inst))
    (absorb_point ro self.W_commitment)

/-- Embedding of `AbsorbInRO for RelaxedPlonkInstance` from `src/plonk.rs`: absorb
`W_commitment`, the first two instance values, `u` (converted), then
`E_commitment`. -/
def RelaxedPlonkInstance.absorb_into {F G B : Type} (fe_to_fe : F → B)
    (self : RelaxedPlonkInstance F G) (ro : List (ROItem B G)) : List (ROItem B G) :=
  let ro1 := (self.«instance».take 2).foldl (fun st inst => absorb_base st (fe_to_fe inst))
    (absorb_point ro self.W_commitment)
  absorb_point (absorb_base ro1 (fe_to_fe self.u)) self.E_commitment

/-- Embedding of `PlonkInstance::to_relax` from `src/plonk.rs`: same `W_commitment`,
`instance` and `y`; `E_commitment` is the identity point and `u = 1`. -/
def PlonkInstance.to_relax {F G : Type} [CommRing F] [AddCommGroup G]
    (self : PlonkInstance F G) : RelaxedPlonkInstance F G :=
  { W_commitment := self.W_commitment
    «instance» := self.«instance»
    E_commitment := 0
    u := 1
    y := self.y }

/-- Embedding of `RelaxedPlonkInstance::new` from `src/plonk.rs`. -/
def RelaxedPlonkInstance.new (F G : Type) [CommRing F] [AddCommGroup G]
    (num_io : Nat) : RelaxedPlonkInstance F G :=
  { W_commitment := CommitmentKey.default_value G
    E_commitment := CommitmentKey.default_value G
    u := 1
    «instance» := List.replicate num_io 0
    y := 1 }

/-- Embedding of `RelaxedPlonkInstance::fold` from `src/plonk.rs`.  `best_multiexp` on a
single point is scalar multiplication; `r.pow([k+1,0,0,0])` is `r ^ (k+1)`. -/
def RelaxedPlonkInstance.fold {F G : Type} [CommRing F] [AddCommGroup G] [Module F G]
    (self : RelaxedPlonkInstance F G) (U2 : PlonkInstance F G)
    (cross_term_commits : List G) (r : F) : RelaxedPlonkInstance F G :=
  let comm_W := self.W_commitment + r • U2.W_commitment
  let inst := List.zipWith (fun a b => a + r * b) self.«instance» U2.«instance»
  let u := self.u + r
  let y := self.y + r * U2.y
  let comm_E := (cross_term_commits.enum.map (fun kt => (r ^ (kt.1 + 1)) • kt.2)).foldl
    (fun acc x => acc + x) self.E_commitment
  { W_commitment := comm_W
    «instance» := inst
    E_commitment := comm_E
    u := u
    y := y }

/-- Embedding of `PlonkWitness::to_relax` from `src/plonk.rs`: `E` is an all-zero vector of
length `W.len() / num_advice_columns`.  In Rust that division panics when
`num_advice_columns = 0`; the panic is modelled as `none`. -/
def PlonkWitness.to_relax {F : Type} [CommRing F] (self : PlonkWitness F) :
    Option (RelaxedPlonkWitness F) :=
  if self.num_advice_columns = 0 then none
  else some
    { num_advice_columns := self.num_advice_columns
      W := self.W
      E := List.replicate (self.W.length / self.num_advice_columns) 0 }

/-- Embedding of `RelaxedPlonkWitness::new` from `src/plonk.rs`: `W` resized to
`2^k * nc` zeros, `E` to `2^k` zeros. -/
def RelaxedPlonkWitness.new (F : Type) [CommRing F] (k : Nat) (nc : Nat) :
    RelaxedPlonkWitness F :=
  { num_advice_columns := nc
    W := List.replicate (2 ^ k * nc) 0
    E := List.replicate (2 ^ k) 0 }

/-- Embedding of `RelaxedPlonkWitness::fold` from `src/plonk.rs`.  The Rust closure mutates
a captured `r_power` alongside the accumulator; the pair state
`(r_power, acc)` makes that explicit.  The source indexes `tk[i]` for every
row `i` of `E` and every cross-term vector `tk`, so it panics exactly when
some cross-term vector is shorter than `E`; the panic is modelled as `none`,
and in the returned case every `tk.getD` read is in bounds. -/
def RelaxedPlonkWitness.fold {F : Type} [CommRing F] (self : RelaxedPlonkWitness F)
    (W2 : PlonkWitness F) (cross_terms : List (List F)) (r : F) :
    Option (RelaxedPlonkWitness F) :=
  if ∃ tk ∈ cross_terms, tk.length < self.E.length then none
  else some
    { num_advice_columns := self.num_advice_columns
      W := List.zipWith (fun w1 w2 => w1 + r * w2) self.W W2.W
      E := self.E.enum.map (fun ie =>
        (cross_terms.foldl
          (fun acc tk => (acc.1 * r, acc.2 + acc.1 * r * tk.getD ie.1 0))
          ((1 : F), ie.2)).2) }

/-- Modelled from the spec: the engine evaluates a polynomial at a row from
the structure's fixed columns, the (relaxed) witness's flattened advice
values and the instance's challenge `y` and scaling factor `u`, using the
column layout visible in `src/plonk.rs` (`y` at index
`num_fixed + num_advice`, `u` one past it). -/
def columnAssignment {F G : Type} [CommRing F] (S : PlonkStructure F G)
    (U : RelaxedPlonkInstance F G) (W : RelaxedPlonkWitness F) (row : Nat) :
    Nat → F := fun i =>
  if i < S.fixed_columns.length then (S.fixed_columns.getD i []).getD row 0
  else if i < S.fixed_columns.length + S.num_advice_columns then
    W.W.getD ((i - S.fixed_columns.length) * 2 ^ S.k + row) 0
  else if i = S.fixed_columns.length + S.num_advice_columns then U.y
  else if i = S.fixed_columns.length + S.num_advice_columns + 1 then U.u
  else 0

/-- Modelled from the spec: row-wise evaluation entry point of the polynomial
engine, with the argument list of `MultiPolynomial::eval` in the source.  The
second instance/witness pair is the degree-padding operand, which is the
neutral pair at every call site in `src/plonk.rs`. -/
def MultiPolynomial.eval {F G : Type} [CommRing F] (p : MultiPolynomial F)
    (row : Nat) (S : PlonkStructure F G) (U1 : RelaxedPlonkInstance F G)
    (W1 : RelaxedPlonkWitness F) (U2 : RelaxedPlonkInstance F G)
    (W2 : RelaxedPlonkWitness F) : F :=
  p.evalAt (columnAssignment S U1 W1 row)

/-- The number of rows on which the gate polynomial evaluates non-zero in
`PlonkStructure::is_sat` (`res` in the source). -/
def PlonkStructure.gateFailCount {F G : Type} [CommRing F] [AddCommGroup G]
    [DecidableEq F] (S : PlonkStructure F G) (U : PlonkInstance F G)
    (Wr : RelaxedPlonkWitness F) : Nat :=
  (List.range (2 ^ S.k)).countP
    (fun row => decide (S.gate.eval row S U.to_relax Wr
      (RelaxedPlonkInstance.new F G U.«instance».length)
      (RelaxedPlonkWitness.new F S.k S.num_advice_columns) ≠ 0))

/-- Embedding of `PlonkStructure::is_sat` from `src/plonk.rs`.  `W.to_relax()` is forced
while counting rows, so its division-by-zero panic propagates (`none`). -/
def PlonkStructure.is_sat {F G : Type} [CommRing F] [AddCommGroup G]
    [DecidableEq F] [DecidableEq G] (S : PlonkStructure F G)
    (ck : CommitmentKey G) [Module F G] (U : PlonkInstance F G)
    (W : PlonkWitness F) : Option (Except (PlonkError G) Unit) :=
  match W.to_relax with
  | none => none
  | some Wr =>
    if U.W_commitment = ck.commit W.W ∧ S.gateFailCount U Wr = 0 then
      some (Except.ok ())
    else
      some (Except.error PlonkError.relationNotSatisfied)

/-- The number of rows where the homogenized gate disagrees with the stored
error vector in `PlonkStructure::is_sat_relaxed` (`res` in the source). -/
def PlonkStructure.relaxedFailCount {F G : Type} [CommRing F] [AddCommGroup G]
    [DecidableEq F] (S : PlonkStructure F G) (U : RelaxedPlonkInstance F G)
    (W : RelaxedPlonkWitness F) : Nat :=
  (List.range (2 ^ S.k)).countP
    (fun row => decide (W.E.getD row 0
      ≠ (S.gate.homogeneous S.fixed_columns.length
          (S.fixed_columns.length + S.num_advice_columns + 1)).eval row S U W
        (RelaxedPlonkInstance.new F G U.«instance».length)
        (RelaxedPlonkWitness.new F S.k S.num_advice_columns)))

/-- Embedding of `PlonkStructure::is_sat_relaxed` from `src/plonk.rs`.  The source indexes
`W.E[i]` for every row `i < 2^k`, so it panics exactly when `W.E` is shorter
than the row count; the panic is modelled as `none`.  The four error branches
mirror the source's `match` arms. -/
def PlonkStructure.is_sat_relaxed {F G : Type} [CommRing F] [AddCommGroup G]
    [DecidableEq F] [DecidableEq G] (S : PlonkStructure F G)
    (ck : CommitmentKey G) [Module F G] (U : RelaxedPlonkInstance F G)
    (W : RelaxedPlonkWitness F) : Option (Except (PlonkError G) Unit) :=
  if W.E.length < 2 ^ S.k then none
  else
    if S.relaxedFailCount U W = 0 then
      if U.W_commitment = ck.commit W.W then
        if U.E_commitment = ck.commit W.E then some (Except.ok ())
        else some (Except.error
          (PlonkError.commitmentMismatchE U.E_commitment (ck.commit W.E)))
      else
        if U.E_commitment = ck.commit W.E then
          some (Except.error
            (PlonkError.commitmentMismatchW U.W_commitment (ck.commit W.W)))
        else some (Except.error
          (PlonkError.commitmentMismatchBoth U.W_commitment (ck.commit W.W)
            U.E_commitment (ck.commit W.E)))
    else some (Except.error
      (PlonkError.relaxedRelationNotSatisfied (S.relaxedFailCount U W) (2 ^ S.k)))

/-! ## Helper lemmas -/

theorem foldl_add_eq_add_sum {M : Type} [AddCommMonoid M] :
    ∀ (l : List M) (c : M), l.foldl (fun a x => a + x) c = c + l.sum := by
  intro l
  induction l with
  | nil => intro c; simp
  | cons x xs ih =>
    intro c
    simp only [List.foldl_cons, List.sum_cons, ih (c + x)]
    rw [add_assoc]

theorem getD_replicate_self {α : Type} (n : Nat) (x : α) (i : Nat) :
    (List.replicate n x).getD i x = x := by
  rcases Nat.lt_or_ge i n with h | h
  · simp [List.getD_eq_getElem?_getD, List.getElem?_replicate, h]
  · rw [List.getD_eq_getElem?_getD, List.getElem?_replicate, if_neg (by omega)]
    rfl

theorem getD_zipWith {α : Type} (f : α → α → α) (d : α) :
    ∀ (l1 l2 : List α) (i : Nat), i < l1.length → i < l2.length →
      (List.zipWith f l1 l2).getD i d = f (l1.getD i d) (l2.getD i d) := by
  intro l1
  induction l1 with
  | nil => intro l2 i h1 _; simp at h1
  | cons x xs ih =>
    intro l2 i h1 h2
    cases l2 with
    | nil => simp at h2
    | cons y ys =>
      cases i with
      | zero => rfl
      | succ j =>
        simp only [List.zipWith_cons_cons, List.getD_cons_succ]
        exact ih ys j (by simpa using h1) (by simpa using h2)

theorem getD_enumFrom_map {α β : Type} (f : Nat × α → β) (d : β) (dα : α) :
    ∀ (l : List α) (n i : Nat), i < l.length →
      ((l.enumFrom n).map f).getD i d = f (n + i, l.getD i dα) := by
  intro l
  induction l with
  | nil => intro n i h; simp at h
  | cons x xs ih =>
    intro n i h
    cases i with
    | zero => simp [List.enumFrom]
    | succ j =>
      simp only [List.enumFrom, List.map_cons, List.getD_cons_succ]
      rw [ih (n + 1) j (by simpa using h)]
      congr 2
      omega

theorem zipWith_add_zero_mul {F : Type} [CommRing F] :
    ∀ (l1 l2 : List F), l1.length = l2.length →
      List.zipWith (fun a b => a + (0 : F) * b) l1 l2 = l1 := by
  intro l1
  induction l1 with
  | nil => intro l2 _; simp
  | cons x xs ih =>
    intro l2 h
    cases l2 with
    | nil => simp at h
    | cons y ys =>
      rw [List.zipWith_cons_cons, ih ys (by simpa using h)]
      simp

theorem commit_replicate_zero {F G : Type} [CommRing F] [AddCommGroup G] [Module F G]
    (ck : CommitmentKey G) (n : Nat) :
    ck.commit (List.replicate n (0 : F)) = 0 := by
  unfold CommitmentKey.commit
  induction n generalizing ck with
  | zero => simp
  | succ m ih =>
    cases hk : ck.key with
    | nil => simp [hk]
    | cons g gs =>
      simp only [hk, List.replicate_succ, List.zipWith_cons_cons, List.sum_cons, zero_smul,
        zero_add]
      exact ih ⟨gs⟩

theorem evalAt_homogeneous_of_scale_one {F : Type} [CommRing F]
    (p : MultiPolynomial F) (num_fixed u_index : Nat) (σ : Nat → F)
    (h : σ u_index = 1) :
    (p.homogeneous num_fixed u_index).evalAt σ = p.evalAt σ := by
  unfold MultiPolynomial.homogeneous MultiPolynomial.evalAt
  simp only [List.map_map]
  congr 1
  apply List.map_congr_left
  intro m _
  simp only [Function.comp_apply, Monomial.evalAt, List.map_append, List.prod_append,
    List.map_replicate, h, List.prod_replicate, one_pow, one_mul]

theorem foldl_absorb_base_eq {F G B : Type} (φ : F → B) :
    ∀ (l : List F) (st : List (ROItem B G)),
      l.foldl (fun s x => absorb_base s (φ x)) st
        = st ++ l.map (fun x => ROItem.base (φ x)) := by
  intro l
  induction l with
  | nil => intro st; simp
  | cons x xs ih =>
    intro st
    rw [List.foldl_cons, ih (absorb_base st (φ x))]
    simp [absorb_base]

theorem pairfold_eq_add_sum {F : Type} [CommRing F] (r : F) (i : Nat) :
    ∀ (cts : List (List F)) (n : Nat) (a : F),
      (cts.foldl (fun acc tk => (acc.1 * r, acc.2 + acc.1 * r * tk.getD i 0))
        ((r ^ n : F), a)).2
      = a + ((cts.enumFrom n).map
          (fun ktk => r ^ (ktk.1 + 1) * ktk.2.getD i 0)).sum := by
  intro cts
  induction cts with
  | nil => intro n a; simp [List.enumFrom]
  | cons tk ts ih =>
    intro n a
    simp only [List.foldl_cons, List.enumFrom, List.map_cons, List.sum_cons]
    have hpow : (r ^ n) * r = r ^ (n + 1) := by rw [pow_succ]
    rw [hpow]
    rw [ih (n + 1) (a + r ^ (n + 1) * tk.getD i 0)]
    ring

theorem gateFailCount_eq_zero_iff {F G : Type} [CommRing F] [AddCommGroup G]
    [DecidableEq F] (S : PlonkStructure F G) (U : PlonkInstance F G)
    (Wr : RelaxedPlonkWitness F) :
    S.gateFailCount U Wr = 0
      ↔ ∀ row, row < 2 ^ S.k →
          S.gate.eval row S U.to_relax Wr
            (RelaxedPlonkInstance.new F G U.«instance».length)
            (RelaxedPlonkWitness.new F S.k S.num_advice_columns) = 0 := by
  unfold PlonkStructure.gateFailCount
  rw [List.countP_eq_zero]
  simp only [List.mem_range, decide_eq_true_eq, not_not]

theorem relaxedFailCount_eq_zero_iff {F G : Type} [CommRing F] [AddCommGroup G]
    [DecidableEq F] (S : PlonkStructure F G) (U : RelaxedPlonkInstance F G)
    (W : RelaxedPlonkWitness F) :
    S.relaxedFailCount U W = 0
      ↔ ∀ row, row < 2 ^ S.k →
          W.E.getD row 0
            = (S.gate.homogeneous S.fixed_columns.length
                (S.fixed_columns.length + S.num_advice_columns + 1)).eval row S U W
              (RelaxedPlonkInstance.new F G U.«instance».length)
              (RelaxedPlonkWitness.new F S.k S.num_advice_columns) := by
  unfold PlonkStructure.relaxedFailCount
  rw [List.countP_eq_zero]
  simp only [List.mem_range, decide_eq_true_eq, not_not]

/-! ## Claim theorems -/

/-- C1: `RelaxedPlonkInstance::fold` returns
`W_commitment + r * U2.W_commitment`, the element-wise combination
`instance[i] + r * U2.instance[i]`, `u + r`, `y + r * U2.y`, and
`E_commitment + sum over k of r^(k+1) * T[k]`, for instance vectors of equal
length. -/
theorem c1_fold_instance_formulas {F G : Type} [CommRing F] [AddCommGroup G]
    [Module F G] (U1 : RelaxedPlonkInstance F G) (U2 : PlonkInstance F G)
    (T : List G) (r : F)
    (hlen : U2.«instance».length = U1.«instance».length) :
    (U1.fold U2 T r).W_commitment = U1.W_commitment + r • U2.W_commitment
    ∧ (∀ i, i < U1.«instance».length →
        (U1.fold U2 T r).«instance».getD i 0
          = U1.«instance».getD i 0 + r * U2.«instance».getD i 0)
    ∧ (U1.fold U2 T r).u = U1.u + r
    ∧ (U1.fold U2 T r).y = U1.y + r * U2.y
    ∧ (U1.fold U2 T r).E_commitment
        = U1.E_commitment
          + (T.enum.map (fun kt => (r ^ (kt.1 + 1)) • kt.2)).sum := by
  refine ⟨rfl, ?_, rfl, rfl, ?_⟩
  · intro i hi
    exact getD_zipWith (fun a b => a + r * b) 0 U1.«instance» U2.«instance» i hi
      (by omega)
  · exact foldl_add_eq_add_sum (T.enum.map (fun kt => (r ^ (kt.1 + 1)) • kt.2))
      U1.E_commitment

/-- Witness for C1 at a concrete input. -/
theorem c1_fold_instance_formulas_witness :
    (([20, 30] : List Int).length = ([2, 3] : List Int).length)
    ∧ (((⟨1, [2, 3], 4, 5, 6⟩ : RelaxedPlonkInstance Int Int).fold
          ⟨10, [20, 30], 40⟩ [100, 200] 2).W_commitment = 1 + 2 • (10 : Int)
      ∧ (∀ i, i < ([2, 3] : List Int).length →
          ((⟨1, [2, 3], 4, 5, 6⟩ : RelaxedPlonkInstance Int Int).fold
              ⟨10, [20, 30], 40⟩ [100, 200] 2).«instance».getD i 0
            = ([2, 3] : List Int).getD i 0 + 2 * ([20, 30] : List Int).getD i 0)
      ∧ ((⟨1, [2, 3], 4, 5, 6⟩ : RelaxedPlonkInstance Int Int).fold
          ⟨10, [20, 30], 40⟩ [100, 200] 2).u = 5 + 2
      ∧ ((⟨1, [2, 3], 4, 5, 6⟩ : RelaxedPlonkInstance Int Int).fold
          ⟨10, [20, 30], 40⟩ [100, 200] 2).y = 6 + 2 * 40
      ∧ ((⟨1, [2, 3], 4, 5, 6⟩ : RelaxedPlonkInstance Int Int).fold
          ⟨10, [20, 30], 40⟩ [100, 200] 2).E_commitment
          = 4 + (([100, 200] : List Int).enum.map
              (fun kt => ((2 : Int) ^ (kt.1 + 1)) • kt.2)).sum) :=
  ⟨by decide,
    c1_fold_instance_formulas ⟨1, [2, 3], 4, 5, 6⟩ ⟨10, [20, 30], 40⟩
      [100, 200] 2 (by decide)⟩

/-- C2: for cross-term vectors of the error vector's length (so the source
does not panic), `RelaxedPlonkWitness::fold` returns a relaxed witness
combining `W` element-wise as `W[i] + r * W2.W[i]` and folding the error
vector per row as `E[row] + sum over k of r^(k+1) * cross_terms[k][row]`. -/
theorem c2_fold_witness_formulas {F : Type} [CommRing F]
    (W1 : RelaxedPlonkWitness F) (W2 : PlonkWitness F)
    (cts : List (List F)) (r : F)
    (hW : W2.W.length = W1.W.length)
    (hE : ∀ ct ∈ cts, ct.length = W1.E.length) :
    ∃ Wf, W1.fold W2 cts r = some Wf
      ∧ (∀ i, i < W1.W.length →
          Wf.W.getD i 0 = W1.W.getD i 0 + r * W2.W.getD i 0)
      ∧ (∀ row, row < W1.E.length →
          Wf.E.getD row 0
            = W1.E.getD row 0
              + (cts.enum.map
                  (fun ktk => r ^ (ktk.1 + 1) * ktk.2.getD row 0)).sum) := by
  have hguard : ¬ ∃ tk ∈ cts, tk.length < W1.E.length := by
    rintro ⟨tk, htk, hlt⟩
    rw [hE tk htk] at hlt
    exact lt_irrefl _ hlt
  refine ⟨⟨W1.num_advice_columns,
      List.zipWith (fun w1 w2 => w1 + r * w2) W1.W W2.W,
      W1.E.enum.map (fun ie =>
        (cts.foldl
          (fun acc tk => (acc.1 * r, acc.2 + acc.1 * r * tk.getD ie.1 0))
          ((1 : F), ie.2)).2)⟩, ?_, ?_, ?_⟩
  · unfold RelaxedPlonkWitness.fold
    rw [if_neg hguard]
  · intro i hi
    exact getD_zipWith (fun w1 w2 => w1 + r * w2) 0 W1.W W2.W i hi (by omega)
  · intro row hrow
    have h1 := getD_enumFrom_map
      (fun ie => (cts.foldl
        (fun acc tk => (acc.1 * r, acc.2 + acc.1 * r * tk.getD ie.1 0))
        ((1 : F), ie.2)).2) 0 0 W1.E 0 row hrow
    simp only [Nat.zero_add] at h1
    have h2 := pairfold_eq_add_sum r row cts 0 (W1.E.getD row 0)
    rw [pow_zero] at h2
    calc (W1.E.enum.map (fun ie =>
            (cts.foldl
              (fun acc tk => (acc.1 * r, acc.2 + acc.1 * r * tk.getD ie.1 0))
              ((1 : F), ie.2)).2)).getD row 0
        = (cts.foldl
            (fun acc tk => (acc.1 * r, acc.2 + acc.1 * r * tk.getD row 0))
            ((1 : F), W1.E.getD row 0)).2 := h1
      _ = W1.E.getD row 0
          + (cts.enum.map (fun ktk => r ^ (ktk.1 + 1) * ktk.2.getD row 0)).sum := h2

/-- Witness for C2 at a concrete input. -/
theorem c2_fold_witness_formulas_witness :
    (([5, 6] : List Int).length = ([1, 2] : List Int).length
      ∧ (∀ ct ∈ ([[7, 8], [9, 10]] : List (List Int)),
          ct.length = ([3, 4] : List Int).length))
    ∧ (∃ Wf, (⟨1, [1, 2], [3, 4]⟩ : RelaxedPlonkWitness Int).fold
          ⟨1, [5, 6]⟩ [[7, 8], [9, 10]] 2 = some Wf
      ∧ (∀ i, i < ([1, 2] : List Int).length →
          Wf.W.getD i 0
            = ([1, 2] : List Int).getD i 0 + 2 * ([5, 6] : List Int).getD i 0)
      ∧ (∀ row, row < ([3, 4] : List Int).length →
          Wf.E.getD row 0
            = ([3, 4] : List Int).getD row 0
              + (([[7, 8], [9, 10]] : List (List Int)).enum.map
                  (fun ktk => (2 : Int) ^ (ktk.1 + 1) * ktk.2.getD row 0)).sum)) :=
  ⟨⟨by decide, by decide⟩,
    c2_fold_witness_formulas ⟨1, [1, 2], [3, 4]⟩ ⟨1, [5, 6]⟩ [[7, 8], [9, 10]] 2
      (by decide) (by decide)⟩

/-- C6: folding with the zero challenge returns the accumulator unchanged in
every field, provided the fresh instance vector has the same length. -/
theorem c6_fold_zero_challenge {F G : Type} [CommRing F] [AddCommGroup G]
    [Module F G] (U1 : RelaxedPlonkInstance F G) (U2 : PlonkInstance F G)
    (T : List G)
    (hlen : U2.«instance».length = U1.«instance».length) :
    U1.fold U2 T 0 = U1 := by
  obtain ⟨Wc, inst, Ec, u, y⟩ := U1
  unfold RelaxedPlonkInstance.fold
  simp only [RelaxedPlonkInstance.mk.injEq]
  refine ⟨?_, ?_, ?_, ?_, ?_⟩
  · rw [zero_smul, add_zero]
  · exact zipWith_add_zero_mul inst U2.«instance» (by simpa using hlen.symm)
  · rw [foldl_add_eq_add_sum]
    have hz : (T.enum.map (fun kt => ((0 : F) ^ (kt.1 + 1)) • kt.2)).sum = 0 := by
      apply List.sum_eq_zero
      intro x hx
      obtain ⟨kt, _, hkt⟩ := List.mem_map.mp hx
      rw [← hkt, zero_pow (Nat.succ_ne_zero kt.1), zero_smul]
    rw [hz, add_zero]
  · rw [add_zero]
  · rw [zero_mul, add_zero]

/-- Witness for C6 at a concrete input. -/
theorem c6_fold_zero_challenge_witness :
    (([20, 30] : List Int).length = ([2, 3] : List Int).length)
    ∧ (⟨1, [2, 3], 4, 5, 6⟩ : RelaxedPlonkInstance Int Int).fold
        ⟨10, [20, 30], 40⟩ [100, 200] 0
      = ⟨1, [2, 3], 4, 5, 6⟩ :=
  ⟨by decide,
    c6_fold_zero_challenge ⟨1, [2, 3], 4, 5, 6⟩ ⟨10, [20, 30], 40⟩ [100, 200]
      (by decide)⟩

/-- C8: `RelaxedPlonkWitness::new(k, nc)` produces all-zero vectors with
`len(W) = nc * 2^k` and `len(E) = 2^k`, and every relaxed witness `fold`
actually produces (it panics, returning nothing, on short cross-term
vectors) preserves both lengths and `num_advice_columns`, whenever the fresh
witness's `W` has the accumulator's length. -/
theorem c8_witness_length_invariant {F : Type} [CommRing F] (k nc : Nat)
    (W1 : RelaxedPlonkWitness F) (W2 : PlonkWitness F) (cts : List (List F))
    (r : F)
    (hW : W2.W.length = W1.W.length)
    (hinv1 : W1.W.length = W1.num_advice_columns * 2 ^ k)
    (hinv2 : W1.E.length = 2 ^ k) :
    ((RelaxedPlonkWitness.new F k nc).W = List.replicate (nc * 2 ^ k) 0
      ∧ (RelaxedPlonkWitness.new F k nc).E = List.replicate (2 ^ k) 0
      ∧ (RelaxedPlonkWitness.new F k nc).num_advice_columns = nc)
    ∧ (∀ Wf, W1.fold W2 cts r = some Wf →
        Wf.W.length = W1.num_advice_columns * 2 ^ k
        ∧ Wf.E.length = 2 ^ k
        ∧ Wf.num_advice_columns = W1.num_advice_columns) := by
  refine ⟨⟨?_, rfl, rfl⟩, ?_⟩
  · show List.replicate (2 ^ k * nc) (0 : F) = List.replicate (nc * 2 ^ k) 0
    rw [Nat.mul_comm]
  · intro Wf hWf
    unfold RelaxedPlonkWitness.fold at hWf
    by_cases hg : ∃ tk ∈ cts, tk.length < W1.E.length
    · rw [if_pos hg] at hWf
      exact Option.noConfusion hWf
    · rw [if_neg hg] at hWf
      obtain rfl := Option.some.inj hWf
      refine ⟨?_, ?_, rfl⟩
      · show (List.zipWith _ W1.W W2.W).length = _
        rw [List.length_zipWith, hW, Nat.min_self, hinv1]
      · show ((W1.E.enum).map _).length = _
        rw [List.length_map, List.enum_length, hinv2]

/-- Witness for C8 at a concrete input. -/
theorem c8_witness_length_invariant_witness :
    (([5, 6] : List Int).length = ([1, 2] : List Int).length
      ∧ ([1, 2] : List Int).length = 2 * 2 ^ 0
      ∧ ([3] : List Int).length = 2 ^ 0)
    ∧ (((RelaxedPlonkWitness.new Int 0 2).W = List.replicate (2 * 2 ^ 0) 0
        ∧ (RelaxedPlonkWitness.new Int 0 2).E = List.replicate (2 ^ 0) 0
        ∧ (RelaxedPlonkWitness.new Int 0 2).num_advice_columns = 2)
      ∧ (∀ Wf, (⟨2, [1, 2], [3]⟩ : RelaxedPlonkWitness Int).fold
            ⟨2, [5, 6]⟩ [[7]] 9 = some Wf →
          Wf.W.length = 2 * 2 ^ 0
          ∧ Wf.E.length = 2 ^ 0
          ∧ Wf.num_advice_columns = 2)) :=
  ⟨⟨by decide, by decide, by decide⟩,
    c8_witness_length_invariant 0 2 ⟨2, [1, 2], [3]⟩ ⟨2, [5, 6]⟩ [[7]] 9
      (by decide) (by decide) (by decide)⟩

/-- C9: the absorption routines emit exactly the stated items in the stated
order: a `PlonkInstance` absorbs `W_commitment` then the first two instance
values (converted); a `RelaxedPlonkInstance` absorbs `W_commitment`, the
first two instance values, `u` (converted), then `E_commitment`. -/
theorem c9_absorb_order {F G B : Type} (fe_to_fe : F → B)
    (U : PlonkInstance F G) (Ur : RelaxedPlonkInstance F G)
    (ro : List (ROItem B G)) :
    U.absorb_into fe_to_fe ro
      = ro ++ [ROItem.point U.W_commitment]
        ++ (U.«instance».take 2).map (fun x => ROItem.base (fe_to_fe x))
    ∧ Ur.absorb_into fe_to_fe ro
      = ro ++ [ROItem.point Ur.W_commitment]
        ++ (Ur.«instance».take 2).map (fun x => ROItem.base (fe_to_fe x))
        ++ [ROItem.base (fe_to_fe Ur.u), ROItem.point Ur.E_commitment] := by
  constructor
  · unfold PlonkInstance.absorb_into
    rw [foldl_absorb_base_eq]
    rfl
  · unfold RelaxedPlonkInstance.absorb_into
    rw [foldl_absorb_base_eq]
    simp [absorb_point, absorb_base]

/-- C10: `PlonkWitness::to_relax` divides by `num_advice_columns`, panicking
exactly when it is zero (modelled as `none`); otherwise it keeps `W` and
`num_advice_columns` and installs an all-zero error vector of length
`len(W) / num_advice_columns`. -/
theorem c10_to_relax_division {F : Type} [CommRing F] (W : PlonkWitness F) :
    (W.num_advice_columns = 0 → W.to_relax = none)
    ∧ (W.num_advice_columns ≠ 0 →
        W.to_relax = some
          { num_advice_columns := W.num_advice_columns
            W := W.W
            E := List.replicate (W.W.length / W.num_advice_columns) 0 }) := by
  constructor
  · intro h
    rw [PlonkWitness.to_relax, if_pos h]
  · intro h
    rw [PlonkWitness.to_relax, if_neg h]

/-- Witness for C10 at concrete inputs, one per branch. -/
theorem c10_to_relax_division_witness :
    ((⟨0, [5]⟩ : PlonkWitness Int).num_advice_columns = 0
      ∧ (⟨2, [5, 6, 7, 8]⟩ : PlonkWitness Int).num_advice_columns ≠ 0)
    ∧ (⟨0, [5]⟩ : PlonkWitness Int).to_relax = none
    ∧ (⟨2, [5, 6, 7, 8]⟩ : PlonkWitness Int).to_relax
        = some ⟨2, [5, 6, 7, 8], [0, 0]⟩ :=
  ⟨⟨by decide, by decide⟩,
    (c10_to_relax_division ⟨0, [5]⟩).1 (by decide),
    (c10_to_relax_division ⟨2, [5, 6, 7, 8]⟩).2 (by decide)⟩

/-- Concrete one-row structure (`k = 0`, one advice column, empty combined
gate) used to evaluate the checkers on closed inputs. -/
def exS : PlonkStructure Int Int := ⟨0, [], 1, ⟨[]⟩, 0⟩

/-- Concrete one-point commitment key. -/
def exCk : CommitmentKey Int := ⟨[1]⟩

/-- Concrete instance whose `W_commitment` is the commitment of `[0]`. -/
def exU : PlonkInstance Int Int := ⟨0, [], 1⟩

/-- Concrete witness matching `exU`. -/
def exW : PlonkWitness Int := ⟨1, [0]⟩

/-- Value of `exW.to_relax` unpacked. -/
def exWr : RelaxedPlonkWitness Int := ⟨1, [0], [0]⟩

/-- Concrete witness whose commitment does not match `exU.W_commitment`. -/
def exWbad : PlonkWitness Int := ⟨1, [1]⟩

/-- C3: `is_sat` succeeds exactly when the combined gate polynomial vanishes
on every row and the witness commitment matches; in every other (non-panic)
case it returns the relation-violation error. -/
theorem c3_is_sat_iff {F G : Type} [CommRing F] [AddCommGroup G] [Module F G]
    [DecidableEq F] [DecidableEq G]
    (S : PlonkStructure F G) (ck : CommitmentKey G) (U : PlonkInstance F G)
    (W : PlonkWitness F) (Wr : RelaxedPlonkWitness F)
    (hWr : W.to_relax = some Wr) :
    (S.is_sat ck U W = some (Except.ok ())
      ↔ (∀ row, row < 2 ^ S.k →
            S.gate.eval row S U.to_relax Wr
              (RelaxedPlonkInstance.new F G U.«instance».length)
              (RelaxedPlonkWitness.new F S.k S.num_advice_columns) = 0)
          ∧ U.W_commitment = ck.commit W.W)
    ∧ (¬ ((∀ row, row < 2 ^ S.k →
            S.gate.eval row S U.to_relax Wr
              (RelaxedPlonkInstance.new F G U.«instance».length)
              (RelaxedPlonkWitness.new F S.k S.num_advice_columns) = 0)
          ∧ U.W_commitment = ck.commit W.W) →
        S.is_sat ck U W = some (Except.error PlonkError.relationNotSatisfied)) := by
  have hcount := gateFailCount_eq_zero_iff S U Wr
  have hform : S.is_sat ck U W
      = if U.W_commitment = ck.commit W.W ∧ S.gateFailCount U Wr = 0
        then some (Except.ok ())
        else some (Except.error PlonkError.relationNotSatisfied) := by
    unfold PlonkStructure.is_sat
    rw [hWr]
  rw [hform]
  constructor
  · split_ifs with h
    · exact iff_of_true rfl ⟨hcount.mp h.2, h.1⟩
    · refine iff_of_false (by simp) ?_
      intro hrc
      exact h ⟨hrc.2, hcount.mpr hrc.1⟩
  · intro hn
    rw [if_neg (fun hc => hn ⟨hcount.mp hc.2, hc.1⟩)]

/-- Witness for C3 at a concrete satisfying input. -/
theorem c3_is_sat_iff_witness :
    (exW.to_relax = some exWr)
    ∧ ((exS.is_sat exCk exU exW = some (Except.ok ())
        ↔ (∀ row, row < 2 ^ exS.k →
              exS.gate.eval row exS exU.to_relax exWr
                (RelaxedPlonkInstance.new Int Int exU.«instance».length)
                (RelaxedPlonkWitness.new Int exS.k exS.num_advice_columns) = 0)
            ∧ exU.W_commitment = exCk.commit exW.W)
      ∧ (¬ ((∀ row, row < 2 ^ exS.k →
              exS.gate.eval row exS exU.to_relax exWr
                (RelaxedPlonkInstance.new Int Int exU.«instance».length)
                (RelaxedPlonkWitness.new Int exS.k exS.num_advice_columns) = 0)
            ∧ exU.W_commitment = exCk.commit exW.W) →
          exS.is_sat exCk exU exW
            = some (Except.error PlonkError.relationNotSatisfied))) :=
  ⟨by decide, c3_is_sat_iff exS exCk exU exW exWr (by decide)⟩

/-- C7 (amended): when the recomputed advice commitment disagrees with the
stored `W_commitment`, `is_sat` fails — but with its single generic
relation-not-satisfied error, which does not identify the commitment
mismatch — even when the gate relation vanishes on every row. -/
theorem c7_tamper_generic_error {F G : Type} [CommRing F] [AddCommGroup G]
    [Module F G] [DecidableEq F] [DecidableEq G]
    (S : PlonkStructure F G) (ck : CommitmentKey G) (U : PlonkInstance F G)
    (W : PlonkWitness F) (Wr : RelaxedPlonkWitness F)
    (hWr : W.to_relax = some Wr)
    (hmismatch : ck.commit W.W ≠ U.W_commitment)
    (hrel : ∀ row, row < 2 ^ S.k →
      S.gate.eval row S U.to_relax Wr
        (RelaxedPlonkInstance.new F G U.«instance».length)
        (RelaxedPlonkWitness.new F S.k S.num_advice_columns) = 0) :
    S.is_sat ck U W = some (Except.error PlonkError.relationNotSatisfied) := by
  have hform : S.is_sat ck U W
      = if U.W_commitment = ck.commit W.W ∧ S.gateFailCount U Wr = 0
        then some (Except.ok ())
        else some (Except.error PlonkError.relationNotSatisfied) := by
    unfold PlonkStructure.is_sat
    rw [hWr]
  rw [hform, if_neg (fun hc => hmismatch hc.1.symm)]

/-- Witness for the amended C7 at a concrete input. -/
theorem c7_tamper_generic_error_witness :
    (exWbad.to_relax = some ⟨1, [1], [0]⟩
      ∧ exCk.commit exWbad.W ≠ exU.W_commitment
      ∧ (∀ row, row < 2 ^ exS.k →
          exS.gate.eval row exS exU.to_relax ⟨1, [1], [0]⟩
            (RelaxedPlonkInstance.new Int Int exU.«instance».length)
            (RelaxedPlonkWitness.new Int exS.k exS.num_advice_columns) = 0))
    ∧ exS.is_sat exCk exU exWbad
        = some (Except.error PlonkError.relationNotSatisfied) :=
  ⟨⟨by decide, by decide, by decide⟩,
    c7_tamper_generic_error exS exCk exU exWbad ⟨1, [1], [0]⟩ (by decide)
      (by decide) (by decide)⟩

/-- C7 counterexample: at a concrete input where the advice commitment does
not match the stored one and the gate relation vanishes on every row,
`is_sat` returns the generic relation-violation error, which is not a
`commitmentMismatchW`-class error (no commitment data is reported). -/
theorem c7_counterexample :
    exS.is_sat exCk exU exWbad
      = some (Except.error PlonkError.relationNotSatisfied)
    ∧ (∀ expected actual : Int,
        (some (Except.error (PlonkError.relationNotSatisfied (G := Int)))
            : Option (Except (PlonkError Int) Unit))
          ≠ some (Except.error
              (PlonkError.commitmentMismatchW expected actual)))
    ∧ exCk.commit exWbad.W ≠ exU.W_commitment
    ∧ (∀ row, row < 2 ^ exS.k →
        exS.gate.eval row exS exU.to_relax ⟨1, [1], [0]⟩
          (RelaxedPlonkInstance.new Int Int exU.«instance».length)
          (RelaxedPlonkWitness.new Int exS.k exS.num_advice_columns) = 0) := by
  refine ⟨by rfl, ?_, by decide, by decide⟩
  intro expected actual
  simp

/-- C4: `is_sat_relaxed` succeeds exactly when the homogenized gate matches
the stored error vector on every row and both commitments match; each failure
is reported distinctly — a relation violation carries the failing-row count
out of the total row count, and commitment mismatches identify `W`, `E`, or
both, carrying expected and actual values. -/
theorem c4_is_sat_relaxed_cases {F G : Type} [CommRing F] [AddCommGroup G]
    [Module F G] [DecidableEq F] [DecidableEq G]
    (S : PlonkStructure F G) (ck : CommitmentKey G)
    (U : RelaxedPlonkInstance F G) (W : RelaxedPlonkWitness F)
    (hlen : 2 ^ S.k ≤ W.E.length) :
    (S.is_sat_relaxed ck U W = some (Except.ok ())
      ↔ (∀ row, row < 2 ^ S.k →
            W.E.getD row 0
              = (S.gate.homogeneous S.fixed_columns.length
                  (S.fixed_columns.length + S.num_advice_columns + 1)).eval
                row S U W (RelaxedPlonkInstance.new F G U.«instance».length)
                (RelaxedPlonkWitness.new F S.k S.num_advice_columns))
          ∧ U.W_commitment = ck.commit W.W
          ∧ U.E_commitment = ck.commit W.E)
    ∧ (¬ (∀ row, row < 2 ^ S.k →
            W.E.getD row 0
              = (S.gate.homogeneous S.fixed_columns.length
                  (S.fixed_columns.length + S.num_advice_columns + 1)).eval
                row S U W (RelaxedPlonkInstance.new F G U.«instance».length)
                (RelaxedPlonkWitness.new F S.k S.num_advice_columns)) →
        S.is_sat_relaxed ck U W
          = some (Except.error (PlonkError.relaxedRelationNotSatisfied
              (S.relaxedFailCount U W) (2 ^ S.k))))
    ∧ ((∀ row, row < 2 ^ S.k →
            W.E.getD row 0
              = (S.gate.homogeneous S.fixed_columns.length
                  (S.fixed_columns.length + S.num_advice_columns + 1)).eval
                row S U W (RelaxedPlonkInstance.new F G U.«instance».length)
                (RelaxedPlonkWitness.new F S.k S.num_advice_columns)) →
        U.W_commitment ≠ ck.commit W.W → U.E_commitment ≠ ck.commit W.E →
        S.is_sat_relaxed ck U W
          = some (Except.error (PlonkError.commitmentMismatchBoth
              U.W_commitment (ck.commit W.W) U.E_commitment (ck.commit W.E))))
    ∧ ((∀ row, row < 2 ^ S.k →
            W.E.getD row 0
              = (S.gate.homogeneous S.fixed_columns.length
                  (S.fixed_columns.length + S.num_advice_columns + 1)).eval
                row S U W (RelaxedPlonkInstance.new F G U.«instance».length)
                (RelaxedPlonkWitness.new F S.k S.num_advice_columns)) →
        U.W_commitment ≠ ck.commit W.W → U.E_commitment = ck.commit W.E →
        S.is_sat_relaxed ck U W
          = some (Except.error (PlonkError.commitmentMismatchW
              U.W_commitment (ck.commit W.W))))
    ∧ ((∀ row, row < 2 ^ S.k →
            W.E.getD row 0
              = (S.gate.homogeneous S.fixed_columns.length
                  (S.fixed_columns.length + S.num_advice_columns + 1)).eval
                row S U W (RelaxedPlonkInstance.new F G U.«instance».length)
                (RelaxedPlonkWitness.new F S.k S.num_advice_columns)) →
        U.W_commitment = ck.commit W.W → U.E_commitment ≠ ck.commit W.E →
        S.is_sat_relaxed ck U W
          = some (Except.error (PlonkError.commitmentMismatchE
              U.E_commitment (ck.commit W.E)))) := by
  have hguard : ¬ (W.E.length < 2 ^ S.k) := Nat.not_lt.mpr hlen
  have hcount := relaxedFailCount_eq_zero_iff S U W
  unfold PlonkStructure.is_sat_relaxed
  rw [if_neg hguard]
  refine ⟨?_, ?_, ?_, ?_, ?_⟩
  · constructor
    · intro heq
      by_cases h1 : S.relaxedFailCount U W = 0
      · by_cases h2 : U.W_commitment = ck.commit W.W
        · by_cases h3 : U.E_commitment = ck.commit W.E
          · exact ⟨hcount.mp h1, h2, h3⟩
          · rw [if_pos h1, if_pos h2, if_neg h3] at heq
            exact absurd heq (by simp)
        · rw [if_pos h1, if_neg h2] at heq
          split_ifs at heq <;> exact absurd heq (by simp)
      · rw [if_neg h1] at heq
        exact absurd heq (by simp)
    · rintro ⟨hR, hW2, hE2⟩
      rw [if_pos (hcount.mpr hR), if_pos hW2, if_pos hE2]
  · intro hR
    rw [if_neg (fun h0 => hR (hcount.mp h0))]
  · intro hR hW2 hE2
    rw [if_pos (hcount.mpr hR), if_neg hW2, if_neg hE2]
  · intro hR hW2 hE2
    rw [if_pos (hcount.mpr hR), if_neg hW2, if_pos hE2]
  · intro hR hW2 hE2
    rw [if_pos (hcount.mpr hR), if_pos hW2, if_neg hE2]

/-- Concrete relaxed instance matching `exWr` under `exS` and `exCk`. -/
def exUr : RelaxedPlonkInstance Int Int := ⟨0, [], 0, 1, 1⟩

/-- Witness for C4 at a concrete satisfying relaxed pair. -/
theorem c4_is_sat_relaxed_cases_witness :
    (2 ^ exS.k ≤ exWr.E.length)
    ∧ ((exS.is_sat_relaxed exCk exUr exWr = some (Except.ok ())
        ↔ (∀ row, row < 2 ^ exS.k →
              exWr.E.getD row 0
                = (exS.gate.homogeneous exS.fixed_columns.length
                    (exS.fixed_columns.length + exS.num_advice_columns + 1)).eval
                  row exS exUr exWr
                  (RelaxedPlonkInstance.new Int Int exUr.«instance».length)
                  (RelaxedPlonkWitness.new Int exS.k exS.num_advice_columns))
            ∧ exUr.W_commitment = exCk.commit exWr.W
            ∧ exUr.E_commitment = exCk.commit exWr.E)
      ∧ (¬ (∀ row, row < 2 ^ exS.k →
              exWr.E.getD row 0
                = (exS.gate.homogeneous exS.fixed_columns.length
                    (exS.fixed_columns.length + exS.num_advice_columns + 1)).eval
                  row exS exUr exWr
                  (RelaxedPlonkInstance.new Int Int exUr.«instance».length)
                  (RelaxedPlonkWitness.new Int exS.k exS.num_advice_columns)) →
          exS.is_sat_relaxed exCk exUr exWr
            = some (Except.error (PlonkError.relaxedRelationNotSatisfied
                (exS.relaxedFailCount exUr exWr) (2 ^ exS.k))))
      ∧ ((∀ row, row < 2 ^ exS.k →
              exWr.E.getD row 0
                = (exS.gate.homogeneous exS.fixed_columns.length
                    (exS.fixed_columns.length + exS.num_advice_columns + 1)).eval
                  row exS exUr exWr
                  (RelaxedPlonkInstance.new Int Int exUr.«instance».length)
                  (RelaxedPlonkWitness.new Int exS.k exS.num_advice_columns)) →
          exUr.W_commitment ≠ exCk.commit exWr.W →
          exUr.E_commitment ≠ exCk.commit exWr.E →
          exS.is_sat_relaxed exCk exUr exWr
            = some (Except.error (PlonkError.commitmentMismatchBoth
                exUr.W_commitment (exCk.commit exWr.W)
                exUr.E_commitment (exCk.commit exWr.E))))
      ∧ ((∀ row, row < 2 ^ exS.k →
              exWr.E.getD row 0
                = (exS.gate.homogeneous exS.fixed_columns.length
                    (exS.fixed_columns.length + exS.num_advice_columns + 1)).eval
                  row exS exUr exWr
                  (RelaxedPlonkInstance.new Int Int exUr.«instance».length)
                  (RelaxedPlonkWitness.new Int exS.k exS.num_advice_columns)) →
          exUr.W_commitment ≠ exCk.commit exWr.W →
          exUr.E_commitment = exCk.commit exWr.E →
          exS.is_sat_relaxed exCk exUr exWr
            = some (Except.error (PlonkError.commitmentMismatchW
                exUr.W_commitment (exCk.commit exWr.W))))
      ∧ ((∀ row, row < 2 ^ exS.k →
              exWr.E.getD row 0
                = (exS.gate.homogeneous exS.fixed_columns.length
                    (exS.fixed_columns.length + exS.num_advice_columns + 1)).eval
                  row exS exUr exWr
                  (RelaxedPlonkInstance.new Int Int exUr.«instance».length)
                  (RelaxedPlonkWitness.new Int exS.k exS.num_advice_columns)) →
          exUr.W_commitment = exCk.commit exWr.W →
          exUr.E_commitment ≠ exCk.commit exWr.E →
          exS.is_sat_relaxed exCk exUr exWr
            = some (Except.error (PlonkError.commitmentMismatchE
                exUr.E_commitment (exCk.commit exWr.E))))) :=
  ⟨by decide, c4_is_sat_relaxed_cases exS exCk exUr exWr (by decide)⟩

/-- C5: lifting a plain pair with `to_relax` (with `u = 1`, all-zero error
vector, identity error commitment) preserves satisfiability exactly:
`is_sat_relaxed` on the lifted pair succeeds iff `is_sat` succeeds on the
original pair, for witnesses of the invariant length
`len(W) = num_advice_columns * 2^k`. -/
theorem c5_lift_preserves_sat {F G : Type} [CommRing F] [AddCommGroup G]
    [Module F G] [DecidableEq F] [DecidableEq G]
    (S : PlonkStructure F G) (ck : CommitmentKey G) (U : PlonkInstance F G)
    (W : PlonkWitness F) (Wr : RelaxedPlonkWitness F)
    (hWr : W.to_relax = some Wr)
    (hlen : W.W.length = W.num_advice_columns * 2 ^ S.k) :
    (S.is_sat_relaxed ck U.to_relax Wr = some (Except.ok ())
      ↔ S.is_sat ck U W = some (Except.ok ())) := by
  have hnc : W.num_advice_columns ≠ 0 := by
    intro h0
    rw [PlonkWitness.to_relax, if_pos h0] at hWr
    exact Option.noConfusion hWr
  rw [PlonkWitness.to_relax, if_neg hnc] at hWr
  obtain rfl : Wr
      = ⟨W.num_advice_columns, W.W,
          List.replicate (W.W.length / W.num_advice_columns) 0⟩ :=
    (Option.some.inj hWr).symm
  have hdiv : W.W.length / W.num_advice_columns = 2 ^ S.k := by
    rw [hlen]
    exact Nat.mul_div_cancel_left _ (Nat.pos_of_ne_zero hnc)
  have hσ : ∀ row,
      columnAssignment S U.to_relax
        ⟨W.num_advice_columns, W.W,
          List.replicate (W.W.length / W.num_advice_columns) 0⟩ row
        (S.fixed_columns.length + S.num_advice_columns + 1) = 1 := by
    intro row
    unfold columnAssignment
    rw [if_neg (by omega), if_neg (by omega), if_neg (by omega), if_pos rfl]
    rfl
  have hcounts :
      S.relaxedFailCount U.to_relax
          ⟨W.num_advice_columns, W.W,
            List.replicate (W.W.length / W.num_advice_columns) 0⟩
        = S.gateFailCount U
            ⟨W.num_advice_columns, W.W,
              List.replicate (W.W.length / W.num_advice_columns) 0⟩ := by
    unfold PlonkStructure.relaxedFailCount PlonkStructure.gateFailCount
    apply List.countP_congr
    intro row hrow
    simp only [decide_eq_true_eq]
    rw [getD_replicate_self]
    simp only [MultiPolynomial.eval]
    rw [evalAt_homogeneous_of_scale_one _ _ _ _ (hσ row)]
    exact ne_comm
  have hCE : (0 : G)
      = ck.commit (List.replicate (W.W.length / W.num_advice_columns) (0 : F)) :=
    (commit_replicate_zero ck _).symm
  have hguard :
      ¬ ((List.replicate (W.W.length / W.num_advice_columns) (0 : F)).length
          < 2 ^ S.k) := by
    rw [List.length_replicate, hdiv]
    omega
  have hform : S.is_sat ck U W
      = if U.W_commitment = ck.commit W.W
            ∧ S.gateFailCount U
                ⟨W.num_advice_columns, W.W,
                  List.replicate (W.W.length / W.num_advice_columns) 0⟩ = 0
        then some (Except.ok ())
        else some (Except.error PlonkError.relationNotSatisfied) := by
    unfold PlonkStructure.is_sat
    rw [PlonkWitness.to_relax, if_neg hnc]
  rw [hform]
  unfold PlonkStructure.is_sat_relaxed
  rw [if_neg hguard, hcounts]
  simp only [PlonkInstance.to_relax]
  constructor
  · intro h
    by_cases h1 : S.gateFailCount U
        ⟨W.num_advice_columns, W.W,
          List.replicate (W.W.length / W.num_advice_columns) 0⟩ = 0
    · by_cases h2 : U.W_commitment = ck.commit W.W
      · rw [if_pos ⟨h2, h1⟩]
      · rw [if_pos h1, if_neg h2, if_pos hCE] at h
        exact absurd h (by simp)
    · rw [if_neg h1] at h
      exact absurd h (by simp)
  · intro h
    by_cases hc : U.W_commitment = ck.commit W.W
        ∧ S.gateFailCount U
            ⟨W.num_advice_columns, W.W,
              List.replicate (W.W.length / W.num_advice_columns) 0⟩ = 0
    · rw [if_pos hc.2, if_pos hc.1, if_pos hCE]
    · rw [if_neg hc] at h
      exact absurd h (by simp)

/-- Witness for C5 at a concrete satisfying input. -/
theorem c5_lift_preserves_sat_witness :
    (exW.to_relax = some exWr
      ∧ exW.W.length = exW.num_advice_columns * 2 ^ exS.k)
    ∧ (exS.is_sat_relaxed exCk exU.to_relax exWr = some (Except.ok ())
        ↔ exS.is_sat exCk exU exW = some (Except.ok ())) :=
  ⟨⟨by decide, by decide⟩,
    c5_lift_preserves_sat exS exCk exU exW exWr (by decide) (by decide)⟩

end Sirius
